import Mathlib

/-!
Verification of the Multi-Signal Media Authenticity Decision Engine.

Shallow embedding of the decision core of this repository:
- `src/app/config.py` (`Settings`): thresholds and runtime mode.
- `src/agent/policy_rules.py` (`apply_policy_rules`): the policy rule engine.
- `src/inference/temporal_aggregation.py` (`aggregate_predictions`): the
  score aggregator (numpy percentile/median with linear interpolation).
- `src/inference/audio_infer.py` (`HeuristicAudioDetector`): the weighted
  fusion of the five acoustic heuristic signals and its confidence value.

Python floats are modelled as rationals (`ℚ`); `numpy.std` involves a square
root, so the audio confidence value is modelled in `ℝ` via `Real.sqrt` on a
rational variance.
-/

/-- Configuration fields of `src/app/config.py` read by the decision core.
The shipped constants are `DEEPFAKE_THRESHOLD_LOW = 0.40`,
`DEEPFAKE_THRESHOLD_HIGH = 0.75`, `RUNTIME_MODE = "EDGE_OFFLINE"`;
the structure is parametrised so that claims quantifying over thresholds and
runtime modes can be stated. -/
structure Settings where
  DEEPFAKE_THRESHOLD_LOW : ℚ
  DEEPFAKE_THRESHOLD_HIGH : ℚ
  RUNTIME_MODE : String
deriving DecidableEq, Repr

/-- The shipped configuration singleton (`src/app/config.py`). -/
def settings : Settings :=
  { DEEPFAKE_THRESHOLD_LOW := 40/100
    DEEPFAKE_THRESHOLD_HIGH := 75/100
    RUNTIME_MODE := "EDGE_OFFLINE" }

/-- Result record of `apply_policy_rules` (`src/agent/policy_rules.py`). -/
structure PolicyDecision where
  verdict : String
  risk_level : String
  policy_applied : List String
  action_required : String
deriving DecidableEq, Repr

/-- Rule 1 of `apply_policy_rules`: extreme confidence override.
`if confidence > 0.98: final_risk_level = "CRITICAL";
policy_flags.append("EXTREME_CONFIDENCE_LOCK")`. -/
def rule1_extreme_confidence (confidence : ℚ) (risk : String) (flags : List String) :
    String × List String :=
  if confidence > 98/100 then ("CRITICAL", flags ++ ["EXTREME_CONFIDENCE_LOCK"])
  else (risk, flags)

/-- Rule 2 of `apply_policy_rules`: the ambiguity zone policy.
`if settings.DEEPFAKE_THRESHOLD_LOW < confidence < settings.DEEPFAKE_THRESHOLD_HIGH:
final_verdict = "UNCERTAIN"; final_risk_level = "MEDIUM";
policy_flags.append("REQUIRES_HUMAN_REVIEW")`. -/
def rule2_ambiguity_zone (cfg : Settings) (confidence : ℚ) (verdict risk : String)
    (flags : List String) : String × String × List String :=
  if cfg.DEEPFAKE_THRESHOLD_LOW < confidence ∧ confidence < cfg.DEEPFAKE_THRESHOLD_HIGH then
    ("UNCERTAIN", "MEDIUM", flags ++ ["REQUIRES_HUMAN_REVIEW"])
  else (verdict, risk, flags)

/-- Rule 3 of `apply_policy_rules`: edge case safety.
`if settings.RUNTIME_MODE == "EDGE_OFFLINE" and final_verdict == "UNCERTAIN":
final_risk_level = "HIGH"; policy_flags.append("OFFLINE_PRECAUTIONARY_ESCALATION")`. -/
def rule3_offline_escalation (cfg : Settings) (verdict risk : String) (flags : List String) :
    String × List String :=
  if cfg.RUNTIME_MODE = "EDGE_OFFLINE" ∧ verdict = "UNCERTAIN" then
    ("HIGH", flags ++ ["OFFLINE_PRECAUTIONARY_ESCALATION"])
  else (risk, flags)

/-- Embedding of `apply_policy_rules(verdict, confidence, risk_level)` of
`src/agent/policy_rules.py`, with the ambient `settings` module singleton made
an explicit first argument.  The three rules run in order on the working
verdict/risk/flags state; `action_required` is `"MANUAL_INSPECTION"` iff the
final risk level is `"HIGH"` or `"CRITICAL"`. -/
def apply_policy_rules (cfg : Settings) (verdict : String) (confidence : ℚ)
    (risk_level : String) : PolicyDecision :=
  let s1 := rule1_extreme_confidence confidence risk_level []
  let s2 := rule2_ambiguity_zone cfg confidence verdict s1.1 s1.2
  let s3 := rule3_offline_escalation cfg s2.1 s2.2.1 s2.2.2
  { verdict := s2.1
    risk_level := s3.1
    policy_applied := s3.2
    action_required := if s3.1 = "HIGH" ∨ s3.1 = "CRITICAL" then "MANUAL_INSPECTION" else "NONE" }

/-- Numeric rank of the `RiskLevel` enumeration `LOW < MEDIUM < HIGH < CRITICAL`. -/
def riskVal : String → ℕ
  | "MEDIUM" => 1
  | "HIGH" => 2
  | "CRITICAL" => 3
  | _ => 0

/-- Modelled from the spec: the `VerdictClassifier` component (spec §4.3) is not
present under `src/` (only the PolicyEngine and the aggregators are); its
contract is `confidence >= threshold_high → (DEEPFAKE, HIGH)`,
`confidence <= threshold_low → (REAL, LOW)`, otherwise `(UNCERTAIN, MEDIUM)`. -/
def classify (confidence thresh_low thresh_high : ℚ) : String × String :=
  if confidence ≥ thresh_high then ("DEEPFAKE", "HIGH")
  else if confidence ≤ thresh_low then ("REAL", "LOW")
  else ("UNCERTAIN", "MEDIUM")

/-- Ascending sort used to model numpy's internal sorting in
`np.percentile` and `np.median`. -/
def sortScores (l : List ℚ) : List ℚ := l.insertionSort (· ≤ ·)

/-- Model of `np.percentile(scores, q)` with the default linear interpolation:
the virtual index is `(n-1)*q/100`; the result interpolates between the two
neighbouring order statistics. -/
def percentile (l : List ℚ) (q : ℚ) : ℚ :=
  let s := sortScores l
  let n := s.length
  let idx : ℚ := ((n : ℚ) - 1) * q / 100
  let i : ℕ := (⌊idx⌋).toNat
  let lo := s.getD i 0
  let hi := s.getD (i + 1) lo
  lo + (idx - (i : ℚ)) * (hi - lo)

/-- Model of `np.median`: the middle order statistic for odd length, the mean of the two
middle order statistics for even length. -/
def npMedian (l : List ℚ) : ℚ :=
  let s := sortScores l
  let n := s.length
  if n % 2 = 1 then s.getD (n / 2) 0
  else (s.getD (n / 2 - 1) 0 + s.getD (n / 2) 0) / 2

/-- Model of `np.clip(x, 0.0, 1.0)` applied elementwise in `aggregate_predictions`. -/
def clip01 (x : ℚ) : ℚ := min (max x 0) 1

/-- Embedding of `aggregate_predictions(predictions)` of
`src/inference/temporal_aggregation.py`: empty input returns `0.0`; otherwise
clip all scores into `[0,1]`, keep only the scores between the 5th and 95th
percentile inclusive, fall back to the full clipped set if that filter removes
everything, and return the median of the retained set. -/
def aggregate_predictions (predictions : List ℚ) : ℚ :=
  if predictions = [] then 0
  else
    let scores := predictions.map clip01
    let lower := percentile scores 5
    let upper := percentile scores 95
    let filtered0 := scores.filter (fun x => decide (lower ≤ x ∧ x ≤ upper))
    let filtered_scores := if filtered0 = [] then scores else filtered0
    npMedian filtered_scores

/-- The five-signal record produced in `HeuristicAudioDetector.analyze_audio`
(`src/inference/audio_infer.py`), keys in dictionary order. -/
structure HeuristicSignalSet where
  spectral_inconsistency : ℚ
  pitch_abnormality : ℚ
  energy_gaps : ℚ
  high_freq_artifacts : ℚ
  temporal_discontinuity : ℚ
deriving DecidableEq, Repr

/-- The signal values in dictionary order, as `list(signals.values())` in
`_calculate_confidence`. -/
def signalScores (s : HeuristicSignalSet) : List ℚ :=
  [s.spectral_inconsistency, s.pitch_abnormality, s.energy_gaps,
   s.high_freq_artifacts, s.temporal_discontinuity]

/-- Embedding of `final_score = sum(signals[k] * weights[k] for k in weights)` of
`analyze_audio`, with the fixed weights 0.25, 0.20, 0.15, 0.25, 0.15. -/
def fusion_score (s : HeuristicSignalSet) : ℚ :=
  s.spectral_inconsistency * (25/100) + s.pitch_abnormality * (20/100)
    + s.energy_gaps * (15/100) + s.high_freq_artifacts * (25/100)
    + s.temporal_discontinuity * (15/100)

/-- Arithmetic mean, as `numpy` uses inside `np.std`. -/
def listMean (l : List ℚ) : ℚ := l.sum / l.length

/-- Population variance (the square of `np.std`). -/
def listVariance (l : List ℚ) : ℚ := ((l.map fun x => (x - listMean l) ^ 2).sum) / l.length

/-- Model of `np.std(scores)`: the square root of the population variance. -/
noncomputable def np_std (l : List ℚ) : ℝ := Real.sqrt ((listVariance l : ℚ) : ℝ)

/-- Embedding of `_calculate_confidence(signals)` of `HeuristicAudioDetector`:
`agreement = 1.0 - np.std(scores)` and `np.clip(agreement, 0.3, 0.95)`. -/
noncomputable def calculate_confidence (s : HeuristicSignalSet) : ℝ :=
  min (max (1 - np_std (signalScores s)) (30/100)) (95/100)

/-- The ten per-face scores of the end-to-end scenario (spec §8). -/
def scenario_scores : List ℚ :=
  [81/100, 79/100, 83/100, 80/100, 5/100, 82/100, 78/100, 84/100, 80/100, 77/100]

/-- C2: for input verdict `UNCERTAIN`, confidence 0.5, risk `MEDIUM` under the
shipped `EDGE_OFFLINE` configuration, the PolicyEngine returns risk `HIGH`,
action `MANUAL_INSPECTION`, and the flags `[REQUIRES_HUMAN_REVIEW,
OFFLINE_PRECAUTIONARY_ESCALATION]` in exactly that order: rule 2 fires before
rule 3 and each fired rule appends exactly one flag. -/
theorem C2_offline_ambiguity_case :
    apply_policy_rules settings "UNCERTAIN" (1/2) "MEDIUM" =
      { verdict := "UNCERTAIN", risk_level := "HIGH",
        policy_applied := ["REQUIRES_HUMAN_REVIEW", "OFFLINE_PRECAUTIONARY_ESCALATION"],
        action_required := "MANUAL_INSPECTION" } := by
  norm_num [apply_policy_rules, rule1_extreme_confidence, rule2_ambiguity_zone,
    rule3_offline_escalation, settings]

/-- C1 counterexample: at input verdict `UNCERTAIN`, confidence 0.99, initial
risk `LOW`, rule 1 fires (the `EXTREME_CONFIDENCE_LOCK` flag is present, so
`CRITICAL` was set by an earlier rule), yet the final risk level is `HIGH`,
strictly below `CRITICAL`: rule 3 lowered a level set by a higher-priority
rule, refuting the stated monotonicity invariant. -/
theorem C1_monotonicity_counterexample :
    "EXTREME_CONFIDENCE_LOCK" ∈
      (apply_policy_rules settings "UNCERTAIN" (99/100) "LOW").policy_applied
    ∧ (apply_policy_rules settings "UNCERTAIN" (99/100) "LOW").risk_level = "HIGH"
    ∧ riskVal "HIGH" < riskVal "CRITICAL" := by
  refine ⟨?_, ?_, by decide⟩ <;>
    norm_num [apply_policy_rules, rule1_extreme_confidence, rule2_ambiguity_zone,
      rule3_offline_escalation, settings]

/-- C1 amended: under the shipped configuration the risk level is never lowered
below a level set by an earlier rule, except that rule 3 lowers the rule-1
`CRITICAL` to `HIGH` exactly when the verdict is `UNCERTAIN` and confidence
exceeds 0.98; a rule-2 `MEDIUM` is never lowered (the final risk is at least
`MEDIUM` whenever rule 2 fired). -/
theorem C1_monotonicity_amended (v : String) (c : ℚ) (r : String) :
    (c > 98/100 → v ≠ "UNCERTAIN" →
      (apply_policy_rules settings v c r).risk_level = "CRITICAL")
    ∧ (c > 98/100 → v = "UNCERTAIN" →
      (apply_policy_rules settings v c r).risk_level = "HIGH")
    ∧ (40/100 < c → c < 75/100 →
      riskVal "MEDIUM" ≤ riskVal (apply_policy_rules settings v c r).risk_level) := by
  refine ⟨?_, ?_, ?_⟩
  · intro ha hb
    have h2 : ¬((40 : ℚ)/100 < c ∧ c < 75/100) := by rintro ⟨-, hy⟩; linarith
    simp only [apply_policy_rules, rule1_extreme_confidence, rule2_ambiguity_zone,
      rule3_offline_escalation, settings]
    rw [if_pos ha, if_neg h2]
    simp [hb]
  · intro ha hb
    have h2 : ¬((40 : ℚ)/100 < c ∧ c < 75/100) := by rintro ⟨-, hy⟩; linarith
    simp only [apply_policy_rules, rule1_extreme_confidence, rule2_ambiguity_zone,
      rule3_offline_escalation, settings]
    rw [if_pos ha, if_neg h2]
    simp [hb]
  · intro ha hb
    have h1 : ¬(c > 98/100) := by linarith
    have h2 : (40 : ℚ)/100 < c ∧ c < 75/100 := ⟨ha, hb⟩
    simp only [apply_policy_rules, rule1_extreme_confidence, rule2_ambiguity_zone,
      rule3_offline_escalation, settings]
    rw [if_neg h1, if_pos h2]
    simp [riskVal]

/-- C1 amended witness at verdict `DEEPFAKE`, confidence 0.99, risk `LOW`. -/
theorem C1_monotonicity_amended_witness :
    (apply_policy_rules settings "DEEPFAKE" (99/100) "LOW").risk_level = "CRITICAL" :=
  (C1_monotonicity_amended "DEEPFAKE" (99/100) "LOW").1 (by norm_num) (by simp)

/-- C5: whenever confidence exceeds 0.98, rule 1 forces the working risk level
to `CRITICAL` and appends `EXTREME_CONFIDENCE_LOCK` (which therefore appears in
the final flag list for every verdict, risk and configuration); in particular
`apply(DEEPFAKE, 0.99, HIGH)` under `EDGE_ONLINE` yields risk `CRITICAL` with
the `EXTREME_CONFIDENCE_LOCK` flag. -/
theorem C5_extreme_confidence_lock (cfg : Settings) (v : String) (c : ℚ) (r : String)
    (h : c > 98/100) :
    rule1_extreme_confidence c r [] = ("CRITICAL", ["EXTREME_CONFIDENCE_LOCK"])
    ∧ "EXTREME_CONFIDENCE_LOCK" ∈ (apply_policy_rules cfg v c r).policy_applied
    ∧ (apply_policy_rules { settings with RUNTIME_MODE := "EDGE_ONLINE" }
        "DEEPFAKE" (99/100) "HIGH").risk_level = "CRITICAL"
    ∧ "EXTREME_CONFIDENCE_LOCK" ∈
        (apply_policy_rules { settings with RUNTIME_MODE := "EDGE_ONLINE" }
          "DEEPFAKE" (99/100) "HIGH").policy_applied := by
  refine ⟨by simp [rule1_extreme_confidence, h], ?_, ?_, ?_⟩
  · simp only [apply_policy_rules, rule1_extreme_confidence, rule2_ambiguity_zone,
      rule3_offline_escalation]
    split_ifs <;> simp
  · have h98 : (99 : ℚ)/100 > 98/100 := by norm_num
    have h2 : ¬((40 : ℚ)/100 < 99/100 ∧ (99 : ℚ)/100 < 75/100) := by rintro ⟨-, hy⟩; linarith
    simp only [apply_policy_rules, rule1_extreme_confidence, rule2_ambiguity_zone,
      rule3_offline_escalation, settings]
    rw [if_pos h98, if_neg h2]
    decide
  · have h98 : (99 : ℚ)/100 > 98/100 := by norm_num
    have h2 : ¬((40 : ℚ)/100 < 99/100 ∧ (99 : ℚ)/100 < 75/100) := by rintro ⟨-, hy⟩; linarith
    simp only [apply_policy_rules, rule1_extreme_confidence, rule2_ambiguity_zone,
      rule3_offline_escalation, settings]
    rw [if_pos h98, if_neg h2]
    decide

/-- C5 witness at the shipped configuration, verdict `DEEPFAKE`, confidence
0.99, risk `HIGH`. -/
theorem C5_extreme_confidence_lock_witness :
    rule1_extreme_confidence (99/100) "HIGH" [] = ("CRITICAL", ["EXTREME_CONFIDENCE_LOCK"])
    ∧ "EXTREME_CONFIDENCE_LOCK" ∈
        (apply_policy_rules settings "DEEPFAKE" (99/100) "HIGH").policy_applied
    ∧ (apply_policy_rules { settings with RUNTIME_MODE := "EDGE_ONLINE" }
        "DEEPFAKE" (99/100) "HIGH").risk_level = "CRITICAL"
    ∧ "EXTREME_CONFIDENCE_LOCK" ∈
        (apply_policy_rules { settings with RUNTIME_MODE := "EDGE_ONLINE" }
          "DEEPFAKE" (99/100) "HIGH").policy_applied :=
  C5_extreme_confidence_lock settings "DEEPFAKE" (99/100) "HIGH" (by norm_num)

/-- C9 counterexample: the policy stage contains no configuration validation.
With inverted thresholds (low 0.75 ≥ high 0.40) the evaluation completes
normally and returns an ordinary decision with no flag and no error of any
kind (rule 2 silently never fires); with an unrecognized runtime mode the
evaluation also completes normally (rule 3 silently never fires).  This
refutes the claim that such configurations are surfaced as a distinct
configuration-error kind aborting the evaluation. -/
theorem C9_configuration_errors_counterexample :
    apply_policy_rules ⟨75/100, 40/100, "EDGE_OFFLINE"⟩ "REAL" (1/2) "LOW" =
      { verdict := "REAL", risk_level := "LOW", policy_applied := [],
        action_required := "NONE" }
    ∧ apply_policy_rules ⟨40/100, 75/100, "CLOUD_MODE"⟩ "UNCERTAIN" (1/2) "MEDIUM" =
      { verdict := "UNCERTAIN", risk_level := "MEDIUM",
        policy_applied := ["REQUIRES_HUMAN_REVIEW"], action_required := "NONE" } := by
  constructor <;>
  · norm_num [apply_policy_rules, rule1_extreme_confidence, rule2_ambiguity_zone,
      rule3_offline_escalation]
    decide

/-- C9 amended: misconfiguration is silently tolerated, never reported:
`apply_policy_rules` is total, and under an inverted threshold configuration
(`threshold_high ≤ threshold_low`) rule 2 never fires for any confidence
(no `REQUIRES_HUMAN_REVIEW` flag ever appears), while under an unrecognized
runtime mode rule 3 never fires (no `OFFLINE_PRECAUTIONARY_ESCALATION` flag
ever appears); no configuration-error kind exists. -/
theorem C9_no_configuration_validation (cfg : Settings) (v : String) (c : ℚ) (r : String) :
    (cfg.DEEPFAKE_THRESHOLD_HIGH ≤ cfg.DEEPFAKE_THRESHOLD_LOW →
      "REQUIRES_HUMAN_REVIEW" ∉ (apply_policy_rules cfg v c r).policy_applied)
    ∧ (cfg.RUNTIME_MODE ≠ "EDGE_OFFLINE" →
      "OFFLINE_PRECAUTIONARY_ESCALATION" ∉ (apply_policy_rules cfg v c r).policy_applied) := by
  constructor
  · intro hinv
    have h2 : ¬(cfg.DEEPFAKE_THRESHOLD_LOW < c ∧ c < cfg.DEEPFAKE_THRESHOLD_HIGH) := by
      rintro ⟨hx, hy⟩; linarith
    simp only [apply_policy_rules, rule1_extreme_confidence, rule2_ambiguity_zone,
      rule3_offline_escalation]
    rw [if_neg h2]
    split_ifs <;> simp
  · intro hmode
    have h3 : ∀ vd : String, ¬(cfg.RUNTIME_MODE = "EDGE_OFFLINE" ∧ vd = "UNCERTAIN") := by
      rintro vd ⟨hx, -⟩; exact hmode hx
    simp only [apply_policy_rules, rule1_extreme_confidence, rule2_ambiguity_zone,
      rule3_offline_escalation]
    rw [if_neg (h3 _)]
    split_ifs <;> simp

/-- C9 amended witness: an inverted-threshold configuration and an unknown
runtime mode, each evaluated at a concrete input. -/
theorem C9_no_configuration_validation_witness :
    "REQUIRES_HUMAN_REVIEW" ∉
      (apply_policy_rules ⟨75/100, 40/100, "EDGE_OFFLINE"⟩ "REAL" (1/2) "LOW").policy_applied
    ∧ "OFFLINE_PRECAUTIONARY_ESCALATION" ∉
      (apply_policy_rules ⟨40/100, 75/100, "CLOUD_MODE"⟩ "UNCERTAIN" (1/2)
        "MEDIUM").policy_applied :=
  ⟨(C9_no_configuration_validation ⟨75/100, 40/100, "EDGE_OFFLINE"⟩ "REAL" (1/2) "LOW").1
      (by norm_num),
   (C9_no_configuration_validation ⟨40/100, 75/100, "CLOUD_MODE"⟩ "UNCERTAIN" (1/2) "MEDIUM").2
      (by simp)⟩

/-- C10: under the shipped thresholds (0.40, 0.75), no decision ever carries
both `EXTREME_CONFIDENCE_LOCK` and `REQUIRES_HUMAN_REVIEW`: the extreme
confidence condition (confidence > 0.98) and the ambiguity zone
(0.40 < confidence < 0.75) are disjoint, so the documented CRITICAL-to-MEDIUM
downgrade tension of rule 2 after rule 1 is unreachable in this code. -/
theorem C10_lock_and_review_flags_disjoint (v : String) (c : ℚ) (r : String) :
    "EXTREME_CONFIDENCE_LOCK" ∉ (apply_policy_rules settings v c r).policy_applied
    ∨ "REQUIRES_HUMAN_REVIEW" ∉ (apply_policy_rules settings v c r).policy_applied := by
  by_cases hc : c > 98/100
  · right
    have h2 : ¬((40 : ℚ)/100 < c ∧ c < 75/100) := by rintro ⟨-, hy⟩; linarith
    simp only [apply_policy_rules, rule1_extreme_confidence, rule2_ambiguity_zone,
      rule3_offline_escalation, settings]
    rw [if_pos hc, if_neg h2]
    split_ifs <;> simp
  · left
    simp only [apply_policy_rules, rule1_extreme_confidence, rule2_ambiguity_zone,
      rule3_offline_escalation, settings]
    rw [if_neg hc]
    split_ifs <;> simp

/-- C10 witness at verdict `REAL`, confidence 0.5, risk `LOW`. -/
theorem C10_lock_and_review_flags_disjoint_witness :
    "EXTREME_CONFIDENCE_LOCK" ∉
        (apply_policy_rules settings "REAL" (1/2) "LOW").policy_applied
    ∨ "REQUIRES_HUMAN_REVIEW" ∉
        (apply_policy_rules settings "REAL" (1/2) "LOW").policy_applied :=
  C10_lock_and_review_flags_disjoint "REAL" (1/2) "LOW"

/-- C4: VerdictClassifier contract (modelled from the spec, §4.3): for every
confidence and every threshold pair with low < high, `classify` returns
`(DEEPFAKE, HIGH)` when confidence ≥ high, `(REAL, LOW)` when
confidence ≤ low, and `(UNCERTAIN, MEDIUM)` strictly in between, the
boundaries resolving by the ≥ / ≤ semantics. -/
theorem C4_classifier_contract (c lo hi : ℚ) (h : lo < hi) :
    (c ≥ hi → classify c lo hi = ("DEEPFAKE", "HIGH"))
    ∧ (c ≤ lo → classify c lo hi = ("REAL", "LOW"))
    ∧ (lo < c → c < hi → classify c lo hi = ("UNCERTAIN", "MEDIUM")) := by
  refine ⟨?_, ?_, ?_⟩
  · intro hge
    simp [classify, hge]
  · intro hle
    have hnge : ¬(c ≥ hi) := by linarith
    simp [classify, hnge, hle]
  · intro h1 h2
    have hnge : ¬(c ≥ hi) := by linarith
    have hnle : ¬(c ≤ lo) := by linarith
    simp [classify, hnge, hnle]

/-- C4 witness at the shipped video thresholds, including the spec test
points 0.9, 0.2 and 0.5. -/
theorem C4_classifier_contract_witness :
    classify (9/10) (40/100) (75/100) = ("DEEPFAKE", "HIGH")
    ∧ classify (2/10) (40/100) (75/100) = ("REAL", "LOW")
    ∧ classify (1/2) (40/100) (75/100) = ("UNCERTAIN", "MEDIUM") :=
  ⟨(C4_classifier_contract (9/10) (40/100) (75/100) (by norm_num)).1 (by norm_num),
   (C4_classifier_contract (2/10) (40/100) (75/100) (by norm_num)).2.1 (by norm_num),
   (C4_classifier_contract (1/2) (40/100) (75/100) (by norm_num)).2.2 (by norm_num) (by norm_num)⟩

/-- C3: on the ten scenario scores the aggregator returns exactly 0.80: the
clamped scores are filtered to those within `[p5, p95]` inclusive (the 0.05
outlier is removed), the filter result is nonempty so no fallback occurs, and
the median of the retained set is 0.80. -/
theorem C3_scenario_aggregation :
    aggregate_predictions scenario_scores = 80/100
    ∧ (scenario_scores.map clip01).filter
        (fun x => decide (percentile (scenario_scores.map clip01) 5 ≤ x
          ∧ x ≤ percentile (scenario_scores.map clip01) 95)) =
        [81/100, 79/100, 83/100, 80/100, 82/100, 78/100, 80/100, 77/100]
    ∧ (5/100 : ℚ) ∉ (scenario_scores.map clip01).filter
        (fun x => decide (percentile (scenario_scores.map clip01) 5 ≤ x
          ∧ x ≤ percentile (scenario_scores.map clip01) 95)) := by
  have hclip : scenario_scores.map clip01 = scenario_scores := by
    norm_num [scenario_scores, clip01]
  have hp5 : percentile scenario_scores 5 = 187/500 := by
    norm_num [percentile, sortScores, scenario_scores, List.insertionSort,
      List.orderedInsert, List.getD, Int.toNat]
  have hp95 : percentile scenario_scores 95 = 1671/2000 := by
    norm_num [percentile, sortScores, scenario_scores, List.insertionSort,
      List.orderedInsert, List.getD, Int.toNat]
  have hfil : scenario_scores.filter
      (fun x => decide ((187/500 : ℚ) ≤ x ∧ x ≤ 1671/2000)) =
      [81/100, 79/100, 83/100, 80/100, 82/100, 78/100, 80/100, 77/100] := by
    norm_num [scenario_scores, List.filter]
  have hmed : npMedian [81/100, 79/100, 83/100, 80/100, 82/100, 78/100, 80/100, 77/100]
      = 80/100 := by
    norm_num [npMedian, sortScores, List.insertionSort, List.orderedInsert, List.getD]
  have h0 : scenario_scores ≠ [] := by simp [scenario_scores]
  refine ⟨?_, ?_, ?_⟩
  · simp only [aggregate_predictions, hclip, hp5, hp95, hfil, if_neg h0]
    rw [if_neg (show ([81/100, 79/100, 83/100, 80/100, 82/100, 78/100, 80/100, 77/100] :
      List ℚ) ≠ [] by simp)]
    exact hmed
  · simp only [hclip, hp5, hp95]
    exact hfil
  · simp only [hclip, hp5, hp95, hfil]
    norm_num

/-- C6: with the five heuristic signals all equal to `x`, the fused score is
exactly `x` (the fixed weights 0.25, 0.20, 0.15, 0.25, 0.15 sum to 1) and the
confidence is exactly 0.95 (zero spread clamped to the ceiling); and for every
five-key signal set with values in `[0,1]` the confidence lies in
`[0.30, 0.95]`. -/
theorem C6_audio_fusion_identity_and_bounds (x : ℚ) (h0 : 0 ≤ x) (h1 : x ≤ 1)
    (s : HeuristicSignalSet) (hs : ∀ y ∈ signalScores s, 0 ≤ y ∧ y ≤ 1) :
    fusion_score ⟨x, x, x, x, x⟩ = x
    ∧ calculate_confidence ⟨x, x, x, x, x⟩ = 95/100
    ∧ (30/100 : ℝ) ≤ calculate_confidence s ∧ calculate_confidence s ≤ 95/100 := by
  refine ⟨?_, ?_, ?_, ?_⟩
  · show x * (25/100) + x * (20/100) + x * (15/100) + x * (25/100) + x * (15/100) = x
    ring
  · have hm : listMean [x, x, x, x, x] = x := by
      simp [listMean]
      ring
    have hv : listVariance (signalScores ⟨x, x, x, x, x⟩) = 0 := by
      simp [listVariance, signalScores, hm]
    have hstd : np_std (signalScores ⟨x, x, x, x, x⟩) = 0 := by
      rw [np_std, hv]
      simp
    rw [calculate_confidence, hstd]
    rw [show ((1 : ℝ) - 0) = 1 by norm_num,
      max_eq_left (by norm_num : (30/100 : ℝ) ≤ 1),
      min_eq_right (by norm_num : (95/100 : ℝ) ≤ 1)]
  · simp only [calculate_confidence]
    exact le_min (le_max_right _ _) (by norm_num)
  · simp only [calculate_confidence]
    exact min_le_right _ _

/-- C6 witness at `x = 1/2` with all five signals equal to 1/2. -/
theorem C6_audio_fusion_identity_and_bounds_witness :
    fusion_score ⟨1/2, 1/2, 1/2, 1/2, 1/2⟩ = 1/2
    ∧ calculate_confidence ⟨1/2, 1/2, 1/2, 1/2, 1/2⟩ = 95/100
    ∧ (30/100 : ℝ) ≤ calculate_confidence ⟨1/2, 1/2, 1/2, 1/2, 1/2⟩
    ∧ calculate_confidence ⟨1/2, 1/2, 1/2, 1/2, 1/2⟩ ≤ 95/100 :=
  C6_audio_fusion_identity_and_bounds (1/2) (by norm_num) (by norm_num)
    ⟨1/2, 1/2, 1/2, 1/2, 1/2⟩ (by norm_num [signalScores])

/-- The sorted copy is a permutation of the input. -/
theorem sortScores_perm (l : List ℚ) : List.Perm (sortScores l) l :=
  List.perm_insertionSort _ l

/-- Permutation-equal inputs have identical sorted copies. -/
theorem sortScores_eq_of_perm {l l2 : List ℚ} (h : List.Perm l l2) :
    sortScores l = sortScores l2 :=
  List.eq_of_perm_of_sorted ((sortScores_perm l).trans (h.trans (sortScores_perm l2).symm))
    (List.sorted_insertionSort _ l) (List.sorted_insertionSort _ l2)

/-- The value of `percentile` only depends on the sorted copy, hence is permutation
invariant. -/
theorem percentile_congr {l l2 : List ℚ} (h : List.Perm l l2) (q : ℚ) :
    percentile l q = percentile l2 q := by
  simp only [percentile, sortScores_eq_of_perm h]

/-- The value of `npMedian` only depends on the sorted copy, hence is permutation
invariant. -/
theorem npMedian_congr {l l2 : List ℚ} (h : List.Perm l l2) :
    npMedian l = npMedian l2 := by
  simp only [npMedian, sortScores_eq_of_perm h]

/-- The median of a nonempty list of values in `[0,1]` is in `[0,1]`. -/
theorem npMedian_mem_bounds (l : List ℚ) (hne : l ≠ [])
    (h : ∀ x ∈ l, 0 ≤ x ∧ x ≤ 1) : 0 ≤ npMedian l ∧ npMedian l ≤ 1 := by
  have hperm := sortScores_perm l
  have hmem : ∀ x ∈ sortScores l, 0 ≤ x ∧ x ≤ 1 := fun x hx => h x (hperm.mem_iff.mp hx)
  have hpos : 0 < (sortScores l).length := by
    rw [hperm.length_eq]
    exact List.length_pos.mpr hne
  simp only [npMedian]
  split_ifs with hodd
  · have hidx : (sortScores l).length / 2 < (sortScores l).length :=
      Nat.div_lt_self hpos (by norm_num)
    rw [List.getD_eq_getElem _ _ hidx]
    exact hmem _ (List.getElem_mem hidx)
  · have hi1 : (sortScores l).length / 2 - 1 < (sortScores l).length := by omega
    have hi2 : (sortScores l).length / 2 < (sortScores l).length := by omega
    rw [List.getD_eq_getElem _ _ hi1, List.getD_eq_getElem _ _ hi2]
    obtain ⟨a1, b1⟩ := hmem _ (List.getElem_mem hi1)
    obtain ⟨a2, b2⟩ := hmem _ (List.getElem_mem hi2)
    constructor <;> linarith

/-- Clipping lands in `[0,1]`. -/
theorem clip01_mem (x : ℚ) : 0 ≤ clip01 x ∧ clip01 x ≤ 1 :=
  ⟨le_min (le_max_right x 0) zero_le_one, min_le_right _ _⟩

/-- C7: the aggregator is total and range-bounded: it returns 0 on the empty
sequence, and for every input sequence (even with values outside `[0,1]`,
which are clamped) the result lies in `[0,1]`; no error path exists. -/
theorem C7_aggregate_totality_and_range (l : List ℚ) :
    aggregate_predictions [] = 0
    ∧ 0 ≤ aggregate_predictions l ∧ aggregate_predictions l ≤ 1 := by
  refine ⟨by simp [aggregate_predictions], ?_⟩
  by_cases hl : l = []
  · subst hl
    simp [aggregate_predictions]
  · have hsc : ∀ x ∈ l.map clip01, 0 ≤ x ∧ x ≤ 1 := by
      intro x hx
      obtain ⟨y, -, rfl⟩ := List.mem_map.mp hx
      exact clip01_mem y
    have hscne : l.map clip01 ≠ [] := by simpa using hl
    simp only [aggregate_predictions]
    rw [if_neg hl]
    set lower := percentile (l.map clip01) 5
    set upper := percentile (l.map clip01) 95
    by_cases hf : (l.map clip01).filter (fun x => decide (lower ≤ x ∧ x ≤ upper)) = []
    · rw [if_pos hf]
      exact npMedian_mem_bounds _ hscne hsc
    · rw [if_neg hf]
      refine npMedian_mem_bounds _ hf ?_
      intro x hx
      exact hsc x (List.mem_of_mem_filter hx)

/-- C8: the aggregator is permutation invariant: permutation-equal inputs give
the same aggregated score (the percentile bounds, the multiset retained by the
filter and the median are all order independent). -/
theorem C8_aggregate_permutation_invariant (l l2 : List ℚ) (h : List.Perm l l2) :
    aggregate_predictions l = aggregate_predictions l2 := by
  have hmap : List.Perm (l.map clip01) (l2.map clip01) := h.map clip01
  by_cases hl : l = []
  · subst hl
    rw [List.perm_nil.mp h.symm]
  · have hl2 : l2 ≠ [] := fun e => hl (List.Perm.eq_nil (e ▸ h))
    simp only [aggregate_predictions]
    rw [if_neg hl, if_neg hl2]
    have hper : ∀ q : ℚ, percentile (l.map clip01) q = percentile (l2.map clip01) q :=
      fun q => percentile_congr hmap q
    simp only [hper]
    set lower := percentile (l2.map clip01) 5
    set upper := percentile (l2.map clip01) 95
    have hfilp : List.Perm
        ((l.map clip01).filter (fun x => decide (lower ≤ x ∧ x ≤ upper)))
        ((l2.map clip01).filter (fun x => decide (lower ≤ x ∧ x ≤ upper))) :=
      hmap.filter _
    by_cases hf : (l.map clip01).filter (fun x => decide (lower ≤ x ∧ x ≤ upper)) = []
    · have hf2 : (l2.map clip01).filter (fun x => decide (lower ≤ x ∧ x ≤ upper)) = [] :=
        List.perm_nil.mp (hf ▸ hfilp).symm
      rw [if_pos hf, if_pos hf2]
      exact npMedian_congr hmap
    · have hf2 : (l2.map clip01).filter (fun x => decide (lower ≤ x ∧ x ≤ upper)) ≠ [] :=
        fun e => hf (List.Perm.eq_nil (e ▸ hfilp))
      rw [if_neg hf, if_neg hf2]
      exact npMedian_congr hfilp

/-- C8 witness on the two-element swap `[1/2, 1/4]` vs `[1/4, 1/2]`. -/
theorem C8_aggregate_permutation_invariant_witness :
    aggregate_predictions [1/2, 1/4] = aggregate_predictions [1/4, 1/2] :=
  C8_aggregate_permutation_invariant [1/2, 1/4] [1/4, 1/2] (List.Perm.swap (1/4) (1/2) [])
